import Mathlib

/-!
Shallow embedding of `src/core/mcp_client.py`: the `MCPGitClient` remote
operation client for the git bridge, its per-operation helpers, and the
module-level convenience entry points.

Python values that travel in JSON bodies are modelled by `JVal`; Python
`dict[str, Any]` literals and updates are modelled by ordered association
lists (`Dict`) with Python's insertion-order update semantics.  Optional
parameters with a Python default value are taken as `Option` arguments:
`none` denotes an argument the caller omitted, which selects the default
from the source.  The HTTP side effect of `_call_mcp_tool` is factored
into the request the client builds (`BridgeRequest`) and a pure handler
of the `httpx` response (`handle_response`); `call_mcp_tool` composes the
two against an arbitrary environment `respond`.
-/

/-- Model of a Python/JSON value as sent in request and response bodies. -/
inductive JVal where
  | null : JVal
  | bool (b : Bool) : JVal
  | int (n : Int) : JVal
  | str (s : String) : JVal
  | arr (xs : List JVal) : JVal
  | obj (kvs : List (String × JVal)) : JVal

/-- A Python `dict[str, Any]`, kept in insertion order like CPython dicts. -/
abbrev Dict := List (String × JVal)

/-- Model of Python `d.get(k)`: the value at the first matching key, if any. -/
def Dict.get? (d : Dict) (k : String) : Option JVal :=
  (d.find? (fun p => p.1 == k)).map (fun p => p.2)

/-- Model of Python `d.get(k, v)`: lookup with a fallback value. -/
def Dict.getD (d : Dict) (k : String) (v : JVal) : JVal :=
  (d.get? k).getD v

/-- Model of Python `d[k] = v`: replace in place if the key exists (keeping
its position, as CPython does), otherwise append at the end. -/
def Dict.set (d : Dict) (k : String) (v : JVal) : Dict :=
  if d.any (fun p => p.1 == k) then
    d.map (fun p => if p.1 == k then (k, v) else p)
  else
    d ++ [(k, v)]

/-- Model of a Python dict display `{lit..., **kwargs}`: start from the
literal entries and apply each keyword pair as an ordered update. -/
def mergeKwargs (base : Dict) (kwargs : Dict) : Dict :=
  kwargs.foldl (fun d p => d.set p.1 p.2) base

/-- Python truthiness of a `JVal`, as used by `if not result.get(...)`. -/
def JVal.truthy : JVal → Bool
  | .null => false
  | .bool b => b
  | .int n => n != 0
  | .str s => s != ""
  | .arr xs => !xs.isEmpty
  | .obj kvs => !kvs.isEmpty

/-- Python truthiness of a `str | None` value, as used by `if branch:`. -/
def strOptTruthy : Option String → Bool
  | none => false
  | some s => s != ""

/-- Model of Python `args or {}` on a `dict | None` operand: `None` and the
empty dict are falsy, so both select the right operand. -/
def pyOrDict : Option Dict → Dict → Dict
  | none, d => d
  | some d₁, d => if d₁.isEmpty then d else d₁

mutual

/-- Python `repr` of a `JVal`, for interpolating non-string values into
f-strings (string escaping inside containers is not modelled). -/
def JVal.pyRepr : JVal → String
  | .null => "None"
  | .bool true => "True"
  | .bool false => "False"
  | .int n => toString n
  | .str s => "'" ++ s ++ "'"
  | .arr xs => "[" ++ pyReprList xs ++ "]"
  | .obj kvs => "\x7b" ++ pyReprObj kvs ++ "\x7d"

/-- Comma-separated `repr` of the elements of a Python list. -/
def pyReprList : List JVal → String
  | [] => ""
  | [x] => x.pyRepr
  | x :: xs => x.pyRepr ++ ", " ++ pyReprList xs

/-- Comma-separated `repr` of the entries of a Python dict. -/
def pyReprObj : List (String × JVal) → String
  | [] => ""
  | [(k, v)] => "'" ++ k ++ "': " ++ v.pyRepr
  | (k, v) :: kvs => "'" ++ k ++ "': " ++ v.pyRepr ++ ", " ++ pyReprObj kvs

end

/-- Python `str` of a `JVal`, as produced by f-string interpolation. -/
def JVal.pyStr : JVal → String
  | .str s => s
  | v => v.pyRepr

/-- Model of Python `s.rstrip("/")`: drop every trailing slash. -/
def rstripSlashes (s : String) : String :=
  ⟨(s.data.reverse.dropWhile (fun c => c == '/')).reverse⟩

/-- State of an `MCPGitClient` instance after `__init__`. -/
structure MCPGitClient where
  backend_url : String
  timeout : Nat
deriving DecidableEq

/-- Model of `MCPGitClient.__init__`: the backend URL is stored with
trailing slashes stripped and the timeout is fixed at 30 seconds.  `none`
means the caller omitted `backend_url`, selecting the source's default. -/
def MCPGitClient.make (backend_url : Option String) : MCPGitClient :=
  { backend_url := rstripSlashes (backend_url.getD "http://localhost:8000")
  , timeout := 30 }

/-- The single POST request `_call_mcp_tool` issues: target URL, the
timeout handed to the HTTP client, and the JSON body. -/
structure BridgeRequest where
  url : String
  timeout : Nat
  body : JVal

/-- The parts of an `httpx` response `_call_mcp_tool` inspects: the status
code, the raw text, and the decoded JSON body (a mapping per the bridge
protocol). -/
structure HttpResponse where
  status_code : Nat
  text : String
  jsonBody : Dict

/-- Outcome of `_call_mcp_tool`: either the returned result value, or the
message of the raised `Exception`. -/
inductive CallOutcome where
  | ok (result : JVal) : CallOutcome
  | raised (msg : String) : CallOutcome

/-- The request-building half of `MCPGitClient._call_mcp_tool`: one POST to
`{backend_url}/api/mcp-bridge/tools/call` with the envelope
`{tool, arguments: {operation, args}, context: {user_id, user_role}}`,
under the client's timeout; a missing `args` is replaced by `{}` via
`args or {}`. -/
def MCPGitClient.call_mcp_tool_request (c : MCPGitClient) (operation : String)
    (args : Option Dict) : BridgeRequest :=
  { url := c.backend_url ++ "/api/mcp-bridge/tools/call"
  , timeout := c.timeout
  , body := .obj
      [ ("tool", .str "git_tool")
      , ("arguments", .obj
          [ ("operation", .str operation)
          , ("args", .obj (pyOrDict args [])) ])
      , ("context", .obj
          [ ("user_id", .str "ai-tool-calling")
          , ("user_role", .str "user") ]) ] }

/-- The response-handling half of `MCPGitClient._call_mcp_tool`: any status
other than 200 raises with the status and text; a 200 body whose `success`
entry is not truthy (or is absent, defaulting to `False`) raises with the
body's `error` entry (defaulting to `"Unknown error"`); otherwise the
body's `result` entry (defaulting to `{}`) is returned. -/
def handle_response (resp : HttpResponse) : CallOutcome :=
  if resp.status_code != 200 then
    .raised ("MCP bridge returned " ++ toString resp.status_code ++ ": " ++ resp.text)
  else
    let result := resp.jsonBody
    if !(result.getD "success" (.bool false)).truthy then
      .raised ("MCP tool call failed: " ++ (result.getD "error" (.str "Unknown error")).pyStr)
    else
      .ok (result.getD "result" (.obj []))

/-- `MCPGitClient._call_mcp_tool` against an environment `respond` that
answers the single POST request the call issues. -/
def MCPGitClient.call_mcp_tool (c : MCPGitClient) (operation : String)
    (args : Option Dict) (respond : BridgeRequest → HttpResponse) : CallOutcome :=
  handle_response (respond (c.call_mcp_tool_request operation args))

/-!
Per-operation helpers.  Each source method only shapes an
operation-specific `args` dict and delegates to `_call_mcp_tool`; none
reads the client state.  They are modelled as the
`(operation, args)` pair the method hands to `_call_mcp_tool`; the full
remote call a client makes for such a pair is `MCPGitClient.opRequest`
composed with `handle_response`.  An `Option`-typed argument with a
non-`none` Python default records whether the caller supplied a value:
`none` selects the source's default.
-/

/-- Model of `MCPGitClient.status`. -/
def MCPGitClient.status (kwargs : Dict) : String × Dict :=
  ("status", kwargs)

/-- Model of `MCPGitClient.branch`. -/
def MCPGitClient.branch (kwargs : Dict) : String × Dict :=
  ("branch", kwargs)

/-- Model of `MCPGitClient.log` (Python default `limit=10`). -/
def MCPGitClient.log (limit : Option Int) (kwargs : Dict) : String × Dict :=
  ("log", mergeKwargs [("limit", .int (limit.getD 10))] kwargs)

/-- Model of `MCPGitClient.diff` (Python defaults `staged=False`, `page=1`,
`page_size=1000`). -/
def MCPGitClient.diff (staged : Option Bool) (page : Option Int)
    (page_size : Option Int) (kwargs : Dict) : String × Dict :=
  ("diff", mergeKwargs
    [ ("staged", .bool (staged.getD false))
    , ("page", .int (page.getD 1))
    , ("page_size", .int (page_size.getD 1000)) ] kwargs)

/-- Model of `MCPGitClient.add`. -/
def MCPGitClient.add (files : List String) (kwargs : Dict) : String × Dict :=
  ("add", mergeKwargs [("files", .arr (files.map .str))] kwargs)

/-- Model of `MCPGitClient.commit`. -/
def MCPGitClient.commit (message : String) (kwargs : Dict) : String × Dict :=
  ("commit", mergeKwargs [("message", .str message)] kwargs)

/-- Model of `MCPGitClient.push` (Python defaults `remote="origin"`,
`branch=None`, `force=False`); `branch` enters `args` only when truthy. -/
def MCPGitClient.push (remote : Option String) (branch : Option String)
    (force : Option Bool) (kwargs : Dict) : String × Dict :=
  let args := mergeKwargs
    [ ("remote", .str (remote.getD "origin"))
    , ("force", .bool (force.getD false)) ] kwargs
  let args := if strOptTruthy branch then args.set "branch" (.str (branch.getD "")) else args
  ("push", args)

/-- Model of `MCPGitClient.pull` (Python defaults `remote="origin"`,
`branch=None`); `branch` enters `args` only when truthy. -/
def MCPGitClient.pull (remote : Option String) (branch : Option String)
    (kwargs : Dict) : String × Dict :=
  let args := mergeKwargs [("remote", .str (remote.getD "origin"))] kwargs
  let args := if strOptTruthy branch then args.set "branch" (.str (branch.getD "")) else args
  ("pull", args)

/-- Model of `MCPGitClient.checkout`. -/
def MCPGitClient.checkout (branch : String) (kwargs : Dict) : String × Dict :=
  ("checkout", mergeKwargs [("branch", .str branch)] kwargs)

/-- Model of `MCPGitClient.merge`. -/
def MCPGitClient.merge (branch : String) (kwargs : Dict) : String × Dict :=
  ("merge", mergeKwargs [("branch", .str branch)] kwargs)

/-- Model of `MCPGitClient.rebase`. -/
def MCPGitClient.rebase (branch : String) (kwargs : Dict) : String × Dict :=
  ("rebase", mergeKwargs [("branch", .str branch)] kwargs)

/-- Model of `MCPGitClient.reset` (Python default `mode="mixed"`). -/
def MCPGitClient.reset (mode : Option String) (kwargs : Dict) : String × Dict :=
  ("reset", mergeKwargs [("mode", .str (mode.getD "mixed"))] kwargs)

/-- Model of `MCPGitClient.stash` (Python default `action="push"`). -/
def MCPGitClient.stash (action : Option String) (kwargs : Dict) : String × Dict :=
  ("stash", mergeKwargs [("action", .str (action.getD "push"))] kwargs)

/-- Model of `MCPGitClient.tag`. -/
def MCPGitClient.tag (name : String) (kwargs : Dict) : String × Dict :=
  ("tag", mergeKwargs [("name", .str name)] kwargs)

/-- Model of `MCPGitClient.remote` (Python default `action="list"`). -/
def MCPGitClient.remote (action : Option String) (kwargs : Dict) : String × Dict :=
  ("remote", mergeKwargs [("action", .str (action.getD "list"))] kwargs)

/-- Model of `MCPGitClient.fetch` (Python default `remote="origin"`). -/
def MCPGitClient.fetch (remote : Option String) (kwargs : Dict) : String × Dict :=
  ("fetch", mergeKwargs [("remote", .str (remote.getD "origin"))] kwargs)

/-- Model of `MCPGitClient.clone` (Python default `directory=None`);
`directory` enters `args` only when truthy. -/
def MCPGitClient.clone (url : String) (directory : Option String)
    (kwargs : Dict) : String × Dict :=
  let args := mergeKwargs [("url", .str url)] kwargs
  let args := if strOptTruthy directory then args.set "directory" (.str (directory.getD "")) else args
  ("clone", args)

/-- The request a client issues for the `(operation, args)` pair a helper
builds. -/
def MCPGitClient.opRequest (c : MCPGitClient) (oa : String × Dict) : BridgeRequest :=
  c.call_mcp_tool_request oa.1 (some oa.2)

/-- The client every convenience function constructs: `MCPGitClient()`
with the default backend URL. -/
def defaultClient : MCPGitClient := MCPGitClient.make none

/-!
Convenience entry points.  Each constructs a default client and makes one
method call; they are modelled as the bridge request that call issues.
`dataset_path` is accepted and never read, as in the source.
-/

/-- Model of `git_status_tool`. -/
def git_status_tool (dataset_path : String) : BridgeRequest :=
  defaultClient.opRequest (MCPGitClient.status [])

/-- Model of `git_commit_tool`. -/
def git_commit_tool (dataset_path : String) (message : String) : BridgeRequest :=
  defaultClient.opRequest (MCPGitClient.commit message [])

/-- Model of `git_add_tool`. -/
def git_add_tool (dataset_path : String) (files : List String) : BridgeRequest :=
  defaultClient.opRequest (MCPGitClient.add files [])

/-- Model of `git_branches_tool`. -/
def git_branches_tool (dataset_path : String) : BridgeRequest :=
  defaultClient.opRequest (MCPGitClient.branch [])

/-- Model of `git_history_tool` (Python default `limit=10`); it always
passes its `limit` on to `MCPGitClient.log`. -/
def git_history_tool (dataset_path : String) (limit : Option Int) : BridgeRequest :=
  defaultClient.opRequest (MCPGitClient.log (some (limit.getD 10)) [])

/-- The constant `context` entry of a request body, if the body is a
mapping that carries one. -/
def BridgeRequest.contextField (r : BridgeRequest) : Option JVal :=
  match r.body with
  | .obj kvs => Dict.get? kvs "context"
  | _ => none

/-!
Theorems settling the claims.
-/

lemma pyOrDict_some_nil (d : Dict) : pyOrDict (some d) [] = d := by
  cases d <;> rfl

/-- C2: every call issues exactly one POST request, to
`{backend_url}/api/mcp-bridge/tools/call`, whose JSON body is the envelope
`{tool: "git_tool", arguments: {operation, args}, context: {user_id,
user_role}}`; a missing args mapping is replaced by the empty mapping. -/
theorem C2_request_envelope (c : MCPGitClient) (operation : String) (args : Dict) :
    c.call_mcp_tool_request operation (some args) =
      { url := c.backend_url ++ "/api/mcp-bridge/tools/call"
      , timeout := c.timeout
      , body := .obj
          [ ("tool", .str "git_tool")
          , ("arguments", .obj
              [ ("operation", .str operation), ("args", .obj args) ])
          , ("context", .obj
              [ ("user_id", .str "ai-tool-calling")
              , ("user_role", .str "user") ]) ] }
    ∧ c.call_mcp_tool_request operation none =
        c.call_mcp_tool_request operation (some []) := by
  constructor
  · simp [MCPGitClient.call_mcp_tool_request, pyOrDict_some_nil]
  · rfl

/-- C3: `diff(staged=True, page=2, page_size=50)` with no extra keyword
arguments builds exactly `{"staged": True, "page": 2, "page_size": 50}`
and delegates it under operation `"diff"`. -/
theorem C3_diff_args :
    MCPGitClient.diff (some true) (some 2) (some 50) [] =
      ("diff",
        [ ("staged", .bool true), ("page", .int 2), ("page_size", .int 50) ]) := rfl

/-- C5: when the caller supplies no value, `push`, `pull` and `fetch`
default `remote` to `"origin"`, `reset` defaults `mode` to `"mixed"`,
`stash` defaults `action` to `"push"`, and `remote` defaults `action` to
`"list"`, and those values appear under those keys in the args mapping. -/
theorem C5_operation_defaults :
    (MCPGitClient.push none none none []).2.get? "remote" = some (.str "origin")
  ∧ (MCPGitClient.pull none none []).2.get? "remote" = some (.str "origin")
  ∧ (MCPGitClient.fetch none []).2.get? "remote" = some (.str "origin")
  ∧ (MCPGitClient.reset none []).2.get? "mode" = some (.str "mixed")
  ∧ (MCPGitClient.stash none []).2.get? "action" = some (.str "push")
  ∧ (MCPGitClient.remote none []).2.get? "action" = some (.str "list") :=
  ⟨rfl, rfl, rfl, rfl, rfl, rfl⟩

/-- C6: the timeout defaults to 30 seconds, is fixed at construction, and
is the timeout applied to the request of every call. -/
theorem C6_bounded_timeout (u : Option String) (c : MCPGitClient)
    (op : String) (args : Option Dict) :
    (MCPGitClient.make u).timeout = 30
  ∧ (c.call_mcp_tool_request op args).timeout = c.timeout :=
  ⟨rfl, rfl⟩

/-- C7: each convenience entry point is a direct pass-through to exactly
one client call on a default-constructed client, and `dataset_path` has no
effect: two calls differing only in `dataset_path` build the same request. -/
theorem C7_convenience_passthrough (p q : String) (message : String)
    (files : List String) (limit : Option Int) :
    git_status_tool p = git_status_tool q
  ∧ git_commit_tool p message = git_commit_tool q message
  ∧ git_add_tool p files = git_add_tool q files
  ∧ git_branches_tool p = git_branches_tool q
  ∧ git_history_tool p limit = git_history_tool q limit
  ∧ git_status_tool p = defaultClient.opRequest (MCPGitClient.status [])
  ∧ git_commit_tool p message =
      defaultClient.opRequest (MCPGitClient.commit message [])
  ∧ git_add_tool p files = defaultClient.opRequest (MCPGitClient.add files [])
  ∧ git_branches_tool p = defaultClient.opRequest (MCPGitClient.branch [])
  ∧ git_history_tool p limit =
      defaultClient.opRequest (MCPGitClient.log (some (limit.getD 10)) []) :=
  ⟨rfl, rfl, rfl, rfl, rfl, rfl, rfl, rfl, rfl, rfl⟩

/-- C8: every request carries the constant context
`{"user_id": "ai-tool-calling", "user_role": "user"}` — the request
builder, the only path to the bridge, offers no way to vary it. -/
theorem C8_constant_context (c : MCPGitClient) (op : String) (args : Option Dict) :
    (c.call_mcp_tool_request op args).contextField =
      some (.obj [ ("user_id", .str "ai-tool-calling")
                 , ("user_role", .str "user") ]) := rfl

/-- C9: the conditional keys are omitted on any falsy value, not only
`None`: `push` and `pull` omit `"branch"`, and `clone` omits
`"directory"`, also when the caller passes the empty string. -/
theorem C9_falsy_keys_omitted (remote : Option String) (force : Option Bool)
    (url : String) :
    (MCPGitClient.push remote (some "") force []).2.get? "branch" = none
  ∧ (MCPGitClient.pull remote (some "") []).2.get? "branch" = none
  ∧ (MCPGitClient.clone url (some "") []).2.get? "directory" = none :=
  ⟨rfl, rfl, rfl⟩

/-- C1: a non-200 status raises with the status-and-text message; a 200
body whose `success` entry is not truthy raises with the body's error
string; both failures surface through the same raised-exception channel,
and a result is returned only when the status is 200 and `success` is
truthy. -/
theorem C1_uniform_error_policy (resp : HttpResponse) :
    (resp.status_code ≠ 200 →
      handle_response resp =
        .raised ("MCP bridge returned " ++ toString resp.status_code ++ ": " ++ resp.text))
  ∧ (resp.status_code = 200 →
      (resp.jsonBody.getD "success" (.bool false)).truthy = false →
      handle_response resp =
        .raised ("MCP tool call failed: "
          ++ (resp.jsonBody.getD "error" (.str "Unknown error")).pyStr))
  ∧ (∀ v, handle_response resp = .ok v →
      resp.status_code = 200
        ∧ (resp.jsonBody.getD "success" (.bool false)).truthy = true) := by
  refine ⟨?_, ?_, ?_⟩
  · intro h
    have hb : (resp.status_code != 200) = true := by simpa using h
    simp [handle_response, hb]
  · intro h1 h2
    simp [handle_response, h1, h2]
  · intro v hv
    by_cases h1 : resp.status_code = 200
    · by_cases h2 : (resp.jsonBody.getD "success" (.bool false)).truthy = true
      · exact ⟨h1, h2⟩
      · have h2f : (resp.jsonBody.getD "success" (.bool false)).truthy = false := by
          simpa using h2
        rw [handle_response] at hv
        simp [h1, h2f] at hv
    · have hb : (resp.status_code != 200) = true := by simpa using h1
      rw [handle_response] at hv
      simp [hb] at hv

/-- C1 witness: a 500 response and a `{"success": false, "error":
"conflict"}` response both raise, with the respective messages. -/
theorem C1_uniform_error_policy_witness :
    handle_response ⟨500, "Internal Server Error", []⟩ =
      .raised "MCP bridge returned 500: Internal Server Error"
  ∧ handle_response ⟨200, "", [("success", .bool false), ("error", .str "conflict")]⟩ =
      .raised "MCP tool call failed: conflict" :=
  ⟨(C1_uniform_error_policy ⟨500, "Internal Server Error", []⟩).1 (by decide),
   (C1_uniform_error_policy
      ⟨200, "", [("success", .bool false), ("error", .str "conflict")]⟩).2.1 rfl rfl⟩

/-- C10: a 200 response returns the body's `result` entry (defaulting to
the empty mapping) exactly when the body's `success` entry is truthy, and
a body with no `success` entry raises with the body's error string. -/
theorem C10_success_gates_result (text : String) (body : Dict) :
    (handle_response ⟨200, text, body⟩ = .ok (body.getD "result" (.obj []))
      ↔ (body.getD "success" (.bool false)).truthy = true)
  ∧ (body.get? "success" = none →
      handle_response ⟨200, text, body⟩ =
        .raised ("MCP tool call failed: "
          ++ (body.getD "error" (.str "Unknown error")).pyStr)) := by
  constructor
  · constructor
    · intro hv
      by_cases h2 : (body.getD "success" (.bool false)).truthy = true
      · exact h2
      · have h2f : (body.getD "success" (.bool false)).truthy = false := by
          simpa using h2
        rw [handle_response] at hv
        simp [h2f] at hv
    · intro h2
      simp [handle_response, h2]
  · intro h
    have h2f : (body.getD "success" (.bool false)).truthy = false := by
      simp [Dict.getD, h, JVal.truthy]
    simp [handle_response, h2f]

/-- C10 witness: a 200 body with no `success` entry raises, carrying its
error string. -/
theorem C10_success_gates_result_witness :
    handle_response ⟨200, "", [("error", .str "boom")]⟩ =
      .raised "MCP tool call failed: boom" :=
  (C10_success_gates_result "" [("error", .str "boom")]).2 rfl

/-- C4 counterexample: `push` called with the provided branch `""` builds
an args mapping without the `"branch"` key, so "when a branch is provided,
the key is present with that value" fails at the empty string. -/
theorem C4_branch_counterexample :
    ¬ ((MCPGitClient.push none (some "") none []).2.get? "branch"
        = some (.str "")) := by
  intro h
  exact Option.noConfusion h

/-- C4 (amended): with `branch=None` the args mapping has no `"branch"`
key; when a non-empty branch is provided, the `"branch"` key is present
with that value; both delegate under operation `"push"`. -/
theorem C4_branch_key (remote : Option String) (force : Option Bool)
    (b : String) (hb : b ≠ "") :
    (MCPGitClient.push remote none force []).2.get? "branch" = none
  ∧ (MCPGitClient.push remote (some b) force []).2.get? "branch" = some (.str b)
  ∧ (MCPGitClient.push remote none force []).1 = "push"
  ∧ (MCPGitClient.push remote (some b) force []).1 = "push" := by
  have ht : strOptTruthy (some b) = true := by
    simp [strOptTruthy, hb]
  refine ⟨rfl, ?_, rfl, rfl⟩
  simp only [MCPGitClient.push, ht]
  rfl

/-- C4 witness: `push` with branch `"main"` carries
`"branch": "main"`, while `push` with no branch omits the key. -/
theorem C4_branch_key_witness :
    (MCPGitClient.push none none none []).2.get? "branch" = none
  ∧ (MCPGitClient.push none (some "main") none []).2.get? "branch"
      = some (.str "main") :=
  ⟨(C4_branch_key none none "main" (by decide)).1,
   (C4_branch_key none none "main" (by decide)).2.1⟩
